import Mathlib

/-!
Shallow embedding of the HTTPS forward proxy in `src/https-server.ts`
(class `HttpsProxy`): target validation for CONNECT, the CONNECT success
response, the write traces of the two tunnel paths, the once-only socket
cleanup machine, upstream-agent selection, the forward-fetch dispatcher
and its outbound-header construction, and the top-level request handler.
Buffers are modelled as `List Nat` (bytes) and JS strings as `String`.
-/

namespace HttpsProxy

/-- JS `String.prototype.includes(sub)`: substring test. -/
def strIncludes (s sub : String) : Bool :=
  s.toList.tails.any (fun t => sub.toList.isPrefixOf t)

/-- JS `String.prototype.startsWith(pre)`. -/
def strStartsWith (s pre : String) : Bool :=
  pre.toList.isPrefixOf s.toList

/-- JS `String.prototype.split(sep)` for a one-character separator, on
character lists: splits at every occurrence, keeping empty pieces. -/
def splitChar (c : Char) : List Char → List (List Char)
  | [] => [[]]
  | x :: xs =>
    let r := splitChar c xs
    if x = c then [] :: r
    else match r with
      | [] => [[x]]
      | y :: ys => (x :: y) :: ys

/-- Join character lists with a one-character separator (the inverse of
`splitChar`, used for `hostparts.join('.')`). -/
def joinChar (c : Char) : List (List Char) → List Char
  | [] => []
  | [p] => p
  | p :: rest => p ++ c :: joinChar c rest

/-- Whitespace skipped by JS `parseInt` before the number. -/
def jsSpace (c : Char) : Bool :=
  c = ' ' ∨ c = '\t' ∨ c = '\n' ∨ c = '\r' ∨ c = '\x0b' ∨ c = '\x0c'

/-- Value of a list of decimal digits. -/
def digitsVal (ds : List Char) : Nat :=
  ds.foldl (fun acc c => 10 * acc + (c.toNat - '0'.toNat)) 0

/-- JS `parseInt(s, 10)`: skip leading whitespace, optional sign, then the
longest prefix of decimal digits; `none` models `NaN`. -/
def jsParseInt (s : String) : Option Int :=
  let cs := s.toList.dropWhile jsSpace
  match cs with
  | '-' :: rest =>
    let ds := rest.takeWhile Char.isDigit
    if ds.isEmpty then none else some (-(digitsVal ds : Int))
  | '+' :: rest =>
    let ds := rest.takeWhile Char.isDigit
    if ds.isEmpty then none else some (digitsVal ds : Int)
  | _ =>
    let ds := cs.takeWhile Char.isDigit
    if ds.isEmpty then none else some (digitsVal ds : Int)

/-! ## CONNECT target validation (`handleConnect`, lines 183-253) -/

/-- A character accepted by the hostname regex `/^[a-zA-Z0-9.-]+$/`. -/
def hostChar (c : Char) : Bool :=
  c.isAlpha ∨ c.isDigit ∨ c = '.' ∨ c = '-'

/-- The test `/^[a-zA-Z0-9.-]+$/.test(hostname)`. -/
def hostMatches (h : String) : Bool :=
  ¬h.isEmpty ∧ h.toList.all hostChar

/-- Legacy `url.parse` helpers: characters that end the authority. -/
def hostEndingChars : List Char := ['/', '?', '#']

/-- Legacy `url.parse` helpers: characters never allowed in a host. -/
def nonHostChars : List Char :=
  ['%', '/', '?', ';', '#', '\'', '\x7b', '\x7d', '|', '\\', '^', '`']

/-- A character of the legacy hostname-label pattern `[+a-z0-9A-Z_-]`. -/
def hostnamePartChar (c : Char) : Bool :=
  c = '+' ∨ c.isAlpha ∨ c.isDigit ∨ c = '_' ∨ c = '-'

/-- The label pattern test `/^[+a-z0-9A-Z_-]{0,63}$/`. -/
def hostnamePartOk (p : List Char) : Bool :=
  p.length ≤ 63 ∧ p.all hostnamePartChar

/-- Index of the first character of `cs` that lies in `set`. -/
def firstIndexOfAny (cs set : List Char) : Option Nat :=
  cs.findIdx? (fun c => set.contains c)

/-- Last index `i ≤ limit` with `cs[i] = '@'` (JS `lastIndexOf('@', limit)`). -/
def lastAtSign (cs : List Char) (limit : Nat) : Option Nat :=
  (List.range (min (limit + 1) cs.length)).reverse.find?
    (fun i => cs.getD i ' ' = '@')

/-- Split a character list on `'.'`. -/
def splitDots (cs : List Char) : List (List Char) :=
  splitChar '.' cs

/-- Node's legacy hostname-label repair: labels with characters above 127
replaced by `x` still pass; the first genuinely invalid label truncates the
hostname to the preceding labels plus the label's valid prefix. -/
def validateLabels (parts : List (List Char)) : List (List Char) :=
  match parts with
  | [] => []
  | p :: rest =>
    if p.isEmpty then p :: validateLabels rest
    else if hostnamePartOk p then p :: validateLabels rest
    else if hostnamePartOk (p.map (fun c => if c.toNat > 127 then 'x' else c)) then
      p :: validateLabels rest
    else
      [(p.takeWhile hostnamePartChar).take 63]

/-- Hostname extracted by Node's legacy `url.parse ("//" ++ s)` for a
colon-free `s`: cut the authority at `/ ? #`, drop a userinfo part before
the last `@`, cut again at the first non-host character, validate the
dot-separated labels, blank out hostnames longer than 255, lowercase. -/
def urlParseHostname (s : String) : String :=
  let cs := s.toList
  let hostEnd1 := firstIndexOfAny cs hostEndingChars
  let limit := match hostEnd1 with
    | some i => i
    | none => cs.length - 1
  let afterAuth := match lastAtSign cs limit with
    | some i => cs.drop (i + 1)
    | none => cs
  let hostEnd2 := (firstIndexOfAny afterAuth nonHostChars).getD afterAuth.length
  let host := afterAuth.take hostEnd2
  let hostname :=
    if host ≠ [] ∧ host.headD ' ' = '[' ∧ host.getLastD ' ' = ']' then host
    else joinChar '.' (validateLabels (splitDots host))
  if hostname.length > 255 then ""
  else String.mk (hostname.map Char.toLower)

/-- Validation gates of `handleConnect` (lines 209-226): reject falsy,
`"null"` and `"undefined"` hostnames, hostnames failing the charset regex
or longer than 253, and ports that are `NaN`, non-positive or above 65535. -/
def connectGates (hostname : String) (targetPort : Option Int) :
    Option (String × Int) :=
  if hostname = "" ∨ hostname = "null" ∨ hostname = "undefined" then none
  else if ¬hostMatches hostname ∨ hostname.length > 253 then none
  else match targetPort with
    | none => none
    | some p => if p ≤ 0 ∨ p > 65535 then none else some (hostname, p)

/-- The slot `parts[0]` of `req.url.split(':')` (line 199). -/
def connectHostOf (u : String) : String :=
  String.mk ((splitChar ':' u.toList).headD [])

/-- The expression `parts[1] || '443'` (line 200): the text parsed as the port, with the
empty or missing slot falling back to `443`. -/
def connectPortStrOf (u : String) : String :=
  match (splitChar ':' u.toList).drop 1 with
  | [] => "443"
  | p :: _ => if p = [] then "443" else String.mk p

/-- Target parsing and validation of `handleConnect` (lines 184-226):
`some (host, port)` when the CONNECT target is accepted, `none` when the
handler answers `400 Bad Request`. -/
def connectValidate (u : String) : Option (String × Int) :=
  if u = "" then none
  else if u.toList.contains ':' then
    connectGates (connectHostOf u) (jsParseInt (connectPortStrOf u))
  else
    let parsedHost := urlParseHostname u
    let hostname := if parsedHost = "" then u else parsedHost
    connectGates hostname (jsParseInt "443")

/-- Outcome of `handleConnect` before dialing: either the 400 rejection or
a dial of the validated target. -/
inductive ConnectDecision
  | reject400
  | dial (host : String) (port : Int)
  deriving DecidableEq, Repr

/-- Thus `handleConnect` either rejects with 400 (never dialing) or dials the
validated target. -/
def handleConnectDecision (u : String) : ConnectDecision :=
  match connectValidate u with
  | none => .reject400
  | some (h, p) => .dial h p

/-! ## CONNECT success response (lines 306-324 and 421-433) -/

/-- The six strings `handleDirectConnect` writes to the client socket as
the success response (lines 423-428). -/
def directConnectWrites : List String :=
  ["HTTP/1.1 200 Connection Established\r\n",
   "Proxy-agent: HTTPS-Proxy/1.0\r\n",
   "Connection: keep-alive\r\n",
   "Keep-Alive: timeout=60, max=1000\r\n",
   "Proxy-Connection: keep-alive\r\n",
   "\r\n"]

/-- The single response string `handleConnectViaProxy` writes to the client
socket (lines 308-313). -/
def proxyConnectResponse : String :=
  "HTTP/1.1 200 Connection Established\r\n" ++
  "Proxy-agent: HTTPS-Proxy/1.0\r\n" ++
  "Connection: keep-alive\r\n" ++
  "Keep-Alive: timeout=60, max=1000\r\n" ++
  "Proxy-Connection: keep-alive\r\n" ++
  "\r\n"

/-- The header block of spec section 4.4, with the proxy name and version
left as parameters. -/
def specConnectResponse (name version : String) : String :=
  "HTTP/1.1 200 Connection Established\r\n" ++
  "Proxy-agent: " ++ name ++ "/" ++ version ++ "\r\n" ++
  "Connection: keep-alive\r\n" ++
  "Keep-Alive: timeout=60, max=1000\r\n" ++
  "Proxy-Connection: keep-alive\r\n" ++
  "\r\n"

/-- The error block written by `sendConnectError` (lines 495-503). -/
def sendConnectErrorBytes (status message : String) : String :=
  "HTTP/1.1 " ++ status ++ "\r\n" ++
  "Content-Type: text/plain\r\n" ++
  "\r\n" ++
  message

/-! ## Tunnel establishment traces (lines 278-381 and 406-484) -/

/-- An observable action of a tunnel handler: a write of HTTP framing to
the client, a flush of a pre-read byte buffer to either side, or the start
of bidirectional piping. -/
inductive TunnelAct
  | writeClientStr (s : String)
  | writeClientBuf (b : List Nat)
  | writeServerBuf (b : List Nat)
  | splice
  deriving DecidableEq, Repr

/-- Ordered actions of `handleDirectConnect`'s connect callback (lines
411-465): abort if the client socket is gone, else write the 200 response,
flush `head` to the outbound socket when non-empty, then pipe both ways. -/
def directConnectTrace (clientDestroyed : Bool) (head : List Nat) :
    List TunnelAct :=
  if clientDestroyed then []
  else
    directConnectWrites.map TunnelAct.writeClientStr
      ++ (if head.length > 0 then [TunnelAct.writeServerBuf head] else [])
      ++ [TunnelAct.splice]

/-- Ordered actions of `handleConnectViaProxy`'s connect callback (lines
278-381): abort if the client socket is gone, else write the 200 response,
flush `head` to the upstream socket and `proxyHead` to the client when
non-empty, then pipe both ways. -/
def proxyConnectTrace (clientDestroyed : Bool) (head proxyHead : List Nat) :
    List TunnelAct :=
  if clientDestroyed then []
  else
    [TunnelAct.writeClientStr proxyConnectResponse]
      ++ (if head.length > 0 then [TunnelAct.writeServerBuf head] else [])
      ++ (if proxyHead.length > 0 then [TunnelAct.writeClientBuf proxyHead] else [])
      ++ [TunnelAct.splice]

/-! ## Splice cleanup machine (`setupSocketErrorHandlers`, lines 508-606) -/

/-- Idle timeout installed on both sockets during splicing (line 586):
60 s when the hostname contains `tradingview` or the port is 443, the
configured `timeout` (default 30000 ms) otherwise. -/
def spliceTimeoutMs (hostname : String) (targetPort : Nat) (timeout : Nat) :
    Nat :=
  if strIncludes hostname "tradingview" ∨ targetPort = 443 then 60000
  else timeout

/-- State shared by the handlers `setupSocketErrorHandlers` installs: the
`connectionClosed` flag, the destroyed/unpiped state of both sockets, and
a counter of how many times the cleanup body ran. -/
structure SpliceState where
  connectionClosed : Bool
  clientDestroyed : Bool
  serverDestroyed : Bool
  clientUnpiped : Bool
  serverUnpiped : Bool
  cleanupCount : Nat
  deriving DecidableEq, Repr

/-- Splice state right after the handlers are installed: flag down, counter
zero, each socket possibly already destroyed. -/
def initialSpliceState (clientDestroyed serverDestroyed : Bool) : SpliceState :=
  { connectionClosed := false
    clientDestroyed := clientDestroyed
    serverDestroyed := serverDestroyed
    clientUnpiped := false
    serverUnpiped := false
    cleanupCount := 0 }

/-- The `cleanup` closure (lines 511-532): return if the shared flag is
set; otherwise raise it and unpipe-and-destroy each socket that is not
destroyed yet. -/
def cleanup (st : SpliceState) : SpliceState :=
  if st.connectionClosed then st
  else
    let st := { st with connectionClosed := true,
                        cleanupCount := st.cleanupCount + 1 }
    let st := if ¬st.clientDestroyed then
        { st with clientUnpiped := true, clientDestroyed := true }
      else st
    if ¬st.serverDestroyed then
      { st with serverUnpiped := true, serverDestroyed := true }
    else st

/-- An event one of the installed handlers reacts to. -/
inductive SpliceEvent
  | clientError (msg : String)
  | clientClose (hadError : Bool)
  | clientEnd
  | clientTimeout
  | serverError (msg : String)
  | serverClose (hadError : Bool)
  | serverEnd
  | serverTimeout
  deriving DecidableEq, Repr

/-- Client-side error filter of lines 536-545. -/
def clientCommonError (msg : String) : Bool :=
  strIncludes msg "ECONNRESET" ∨ strIncludes msg "EPIPE" ∨
  strIncludes msg "ENOTCONN" ∨
  strIncludes msg "Client network socket disconnected" ∨
  strIncludes msg "before secure TLS connection" ∨
  strIncludes msg "socket hang up" ∨
  strIncludes msg "PROTOCOL_WRONG_VERSION" ∨
  strIncludes msg "SSL routines" ∨ strIncludes msg "ETIMEDOUT"

/-- Server-side error filter of lines 567-570. -/
def serverCommonError (msg : String) : Bool :=
  strIncludes msg "ECONNRESET" ∨ strIncludes msg "EPIPE" ∨
  strIncludes msg "ENOTCONN" ∨ strIncludes msg "socket hang up"

/-- One handler invocation (lines 534-605): every error, close, end and
timeout event logs as the source decides and then calls `cleanup`.  The
returned flag records whether the event was logged at error level. -/
def spliceStep (st : SpliceState) (e : SpliceEvent) : SpliceState × Bool :=
  match e with
  | .clientError msg => (cleanup st, ¬clientCommonError msg)
  | .clientClose _ => (cleanup st, false)
  | .clientEnd => (cleanup st, false)
  | .clientTimeout => (cleanup st, false)
  | .serverError msg => (cleanup st, ¬serverCommonError msg)
  | .serverClose _ => (cleanup st, false)
  | .serverEnd => (cleanup st, false)
  | .serverTimeout => (cleanup st, false)

/-- Run the installed handlers over a sequence of socket events. -/
def spliceRun (st : SpliceState) (events : List SpliceEvent) : SpliceState :=
  events.foldl (fun s e => (spliceStep s e).1) st

/-! ## Upstream-agent selection (`createProxyAgent`, lines 139-178) -/

/-- The agent classes `createProxyAgent` can instantiate. -/
inductive AgentKind
  | socksAgent
  | httpAgent
  | httpsAgent
  deriving DecidableEq, Repr

/-- Model of `createProxyAgent` (lines 139-178): `upstreamProto` is the `protocol`
of the parsed upstream URL (`none` when no upstream is configured or its
URL does not parse); returns the chosen agent, or `none` (JS `undefined`)
when there is no upstream or its scheme is unrecognized. -/
def createProxyAgent (upstreamProto : Option String) (targetIsHttps : Bool)
    (isConnectMethod : Bool) : Option AgentKind :=
  match upstreamProto with
  | none => none
  | some proto =>
    if proto = "socks5:" ∨ proto = "socks4:" then some .socksAgent
    else if proto = "http:" then some .httpAgent
    else if proto = "https:" then
      if isConnectMethod then some .httpsAgent
      else if targetIsHttps then some .httpsAgent
      else some .httpAgent
    else none

/-- How `handleConnect` routes a validated target (lines 246-252 and
258-266): direct dial when no upstream string is set; otherwise the
via-proxy path, which answers `502 Bad Gateway` when `createProxyAgent`
returns no agent. -/
inductive ConnectRoute
  | direct
  | viaProxy (agent : AgentKind)
  | error502
  deriving DecidableEq, Repr

/-- CONNECT routing: `upstream` is the raw upstream string paired with its
parsed scheme (`none` overall when no upstream is configured). -/
def connectRoute (upstreamProto : Option String) : ConnectRoute :=
  match upstreamProto with
  | none => .direct
  | some proto =>
    match createProxyAgent (some proto) true true with
    | some a => .viaProxy a
    | none => .error502

/-- The transport a forward-fetch request uses (lines 748-768): the
`options.agent` is the created proxy agent when there is one; otherwise a
fresh default agent, i.e. a direct origin connection. -/
inductive ForwardTransport
  | direct
  | viaAgent (agent : AgentKind)
  deriving DecidableEq, Repr

/-- Forward-fetch transport selection (lines 748-768). -/
def forwardTransport (upstreamProto : Option String) (isHttps : Bool) :
    ForwardTransport :=
  match createProxyAgent upstreamProto isHttps false with
  | some a => .viaAgent a
  | none => .direct

/-! ## Direct-connect error reporting (lines 486-503) -/

/-- Observable state of a direct CONNECT connection for the error path:
whether the 200 response has been written (tunnel established) and the
framing strings written to the client so far. -/
structure DirectConnState where
  established : Bool
  clientSocketDestroyed : Bool
  clientWrites : List String
  deriving DecidableEq, Repr

/-- The `serverSocket.on error` handler of `handleDirectConnect` (lines
486-489): it always calls `sendConnectError`, which writes the 502 block
whenever the client socket is not destroyed — also after the 200 response
went out. -/
def directConnOnServerError (st : DirectConnState) (errMsg : String) :
    DirectConnState :=
  if st.clientSocketDestroyed then st
  else
    { st with clientWrites := st.clientWrites ++
        [sendConnectErrorBytes "502 Bad Gateway"
          ("连接目标服务器失败: " ++ errMsg)] }

/-- State of a direct CONNECT right after the connect callback wrote the
200 response and started splicing, with the client socket still open. -/
def establishedDirectConn : DirectConnState :=
  { established := true
    clientSocketDestroyed := false
    clientWrites := directConnectWrites }

/-! ## Forward-fetch dispatcher (`handleHttpRequest`, lines 611-818) -/

/-- The method whitelist of line 623. -/
def validMethods : List String :=
  ["GET", "POST", "PUT", "DELETE", "HEAD", "OPTIONS", "PATCH"]

/-- The heuristic of lines 634-639 that spots TLS bytes misparsed as an
HTTP request: `Host` missing, longer than 255, or containing control or
high-byte characters (the regex ranges x00-x1f and x7f-xff). -/
def sslSuspect (hostHeader : Option String) : Bool :=
  match hostHeader with
  | none => true
  | some h =>
    h.length > 255 ∨
    h.toList.any (fun c => c.toNat ≤ 0x1f ∨ (0x7f ≤ c.toNat ∧ c.toNat ≤ 0xff))

/-- A parsed target URL as the WHATWG `URL` class exposes it: `protocol`
with the trailing colon, lowercased `hostname`, and `port` already blank
for the scheme's default port. -/
structure ParsedUrl where
  protocol : String
  hostname : String
  port : String
  deriving DecidableEq, Repr

/-- WHATWG port normalization: constructing a `URL` blanks the port when it
is the scheme's default. -/
def normalizePort (isHttps : Bool) (p : String) : String :=
  if p = (if isHttps then "443" else "80") then "" else p

/-- Build the `URL` record for an `http:`/`https:` target from its raw
components, applying hostname lowercasing and default-port elision. -/
def mkParsedUrl (isHttps : Bool) (rawHost rawPort : String) : ParsedUrl :=
  { protocol := if isHttps then "https:" else "http:"
    hostname := String.mk (rawHost.toList.map Char.toLower)
    port := normalizePort isHttps rawPort }

/-- The header names deleted from the copied inbound headers before the
outbound request is made (lines 770-778).  Node presents inbound header
names lowercased, so deletion is by exact lowercase name. -/
def strippedHeaderNames : List String :=
  ["host", "proxy-connection", "proxy-authorization", "connection",
   "upgrade", "sec-websocket-key", "sec-websocket-version",
   "sec-websocket-protocol"]

/-- The `Host` value set at lines 780-789: the URL hostname, with
`:port` appended exactly when the URL reports a (necessarily non-default)
port. -/
def outboundHostValue (u : ParsedUrl) : String :=
  if u.port ≠ "" ∨ (¬(u.protocol = "https:") ∧ u.port ≠ "80")
      ∨ (u.protocol = "https:" ∧ u.port ≠ "443") then
    if u.port ≠ "" then u.hostname ++ ":" ++ u.port else u.hostname
  else u.hostname

/-- Outbound header construction (lines 756 and 770-789): copy the inbound
headers, delete the eight listed names, then set `host` when the URL has a
hostname. -/
def buildOutboundHeaders (u : ParsedUrl) (headers : List (String × String)) :
    List (String × String) :=
  let cleaned := headers.filter (fun kv => ¬strippedHeaderNames.contains kv.1)
  if u.hostname = "" then cleaned
  else cleaned ++ [("host", outboundHostValue u)]

/-- The ways `handleHttpRequest` can answer (lines 611-818), up to the
point the outbound request is issued. -/
inductive ForwardResult
  | missingUrl400
  | methodNotAllowed405
  | sslSuspect400
  | statusPage200
  | invalidUrl400
  | badProtocol400
  | forward (isHttps : Bool) (headers : List (String × String))
      (transport : ForwardTransport)
  deriving DecidableEq, Repr

/-- Model of `new URL (u)` restricted to what the dispatcher can reach: an
`http://` or `https://` target is parsed into scheme, hostname and port;
the constructor throws (`none`) on an empty hostname, a non-numeric or
out-of-range port.  Userinfo before the last `@` of the authority is
dropped; a bracketed IPv6 host keeps its colons. -/
def parseHttpUrl (u : String) : Option ParsedUrl :=
  let (isHttps, rest) :=
    if strStartsWith u "https://" then (true, u.toList.drop 8)
    else (false, u.toList.drop 7)
  let auth := rest.takeWhile (fun c => c ≠ '/' ∧ c ≠ '?' ∧ c ≠ '#')
  let hostport := match lastAtSign auth (auth.length - 1) with
    | some i => auth.drop (i + 1)
    | none => auth
  let (hostCs, portCs) :=
    if hostport.headD ' ' = '[' then
      match firstIndexOfAny hostport [']'] with
      | some i => (hostport.take (i + 1), hostport.drop (i + 1))
      | none => (hostport, [])
    else match firstIndexOfAny hostport [':'] with
      | some i => (hostport.take i, hostport.drop i)
      | none => (hostport, [])
  if hostCs.isEmpty then none
  else
    match portCs with
    | [] => some (mkParsedUrl isHttps (String.mk hostCs) "")
    | ':' :: ds =>
      if ds.isEmpty then some (mkParsedUrl isHttps (String.mk hostCs) "")
      else if ds.all Char.isDigit then
        let n := digitsVal ds
        if n > 65535 then none
        else some (mkParsedUrl isHttps (String.mk hostCs) (toString n))
      else none
    | _ => none

/-- Model of `handleHttpRequest` (lines 611-818) up to issuing the outbound
request: reject a missing URL, a method outside the whitelist, route
non-absolute targets to the SSL-suspect 400 or the HTML status page, and
otherwise parse the URL, reject non-`http:`/`https:` protocols, and
forward with sanitized headers over the selected transport. -/
def handleHttpRequest (method targetUrl : String) (hostHeader : Option String)
    (headers : List (String × String)) (upstreamProto : Option String) :
    ForwardResult :=
  if targetUrl = "" then .missingUrl400
  else if ¬validMethods.contains method then .methodNotAllowed405
  else if ¬(strStartsWith targetUrl "http://" ∨ strStartsWith targetUrl "https://") then
    if sslSuspect hostHeader then .sslSuspect400 else .statusPage200
  else
    match parseHttpUrl targetUrl with
    | none => .invalidUrl400
    | some pu =>
      if pu.protocol ≠ "http:" ∧ pu.protocol ≠ "https:" then .badProtocol400
      else
        let isHttps := pu.protocol = "https:"
        .forward isHttps (buildOutboundHeaders pu headers)
          (forwardTransport upstreamProto isHttps)

/-! ## Top-level request handler (`start`, lines 823-838) -/

/-- The permissive CORS headers set on every response (lines 827-829). -/
def corsHeaders : List (String × String) :=
  [("Access-Control-Allow-Origin", "*"),
   ("Access-Control-Allow-Methods", "*"),
   ("Access-Control-Allow-Headers", "*")]

/-- A response of the top-level request handler: the CORS headers it set,
and either the local empty 200 for OPTIONS or the dispatched result. -/
inductive ServerResponse
  | preflight200 (headers : List (String × String))
  | dispatched (headers : List (String × String)) (r : ForwardResult)
  deriving DecidableEq, Repr

/-- The request callback of `https.createServer` (lines 825-838): set the
CORS headers, answer OPTIONS locally with an empty 200, and hand every
other request to `handleHttpRequest`. -/
def serverRequestHandler (method targetUrl : String)
    (hostHeader : Option String) (headers : List (String × String))
    (upstreamProto : Option String) : ServerResponse :=
  if method = "OPTIONS" then .preflight200 corsHeaders
  else .dispatched corsHeaders
    (handleHttpRequest method targetUrl hostHeader headers upstreamProto)

/-! ## Helper lemmas on the splice cleanup machine -/

/-- The closure `cleanup` leaves a state alone once the shared flag is up. -/
theorem cleanup_closed (s : SpliceState) (h : s.connectionClosed = true) :
    cleanup s = s := by
  simp [cleanup, h]

/-- Every handler body reduces to `cleanup` on the state. -/
theorem spliceStep_fst (s : SpliceState) (e : SpliceEvent) :
    (spliceStep s e).1 = cleanup s := by
  cases e <;> rfl

/-- Events after the first leave a closed state untouched. -/
theorem spliceRun_closed (events : List SpliceEvent) (s : SpliceState)
    (h : s.connectionClosed = true) : spliceRun s events = s := by
  induction events with
  | nil => rfl
  | cons e rest ih =>
    show spliceRun (spliceStep s e).1 rest = s
    rw [spliceStep_fst, cleanup_closed s h]
    exact ih

/-- The state after the first cleanup from a fresh splice. -/
theorem cleanup_initial (cd sd : Bool) :
    cleanup (initialSpliceState cd sd) =
      { connectionClosed := true
        clientDestroyed := true
        serverDestroyed := true
        clientUnpiped := !cd
        serverUnpiped := !sd
        cleanupCount := 1 } := by
  cases cd <;> cases sd <;> rfl

/-- Unfold one step of `spliceRun`. -/
theorem spliceRun_cons (s : SpliceState) (e : SpliceEvent)
    (rest : List SpliceEvent) :
    spliceRun s (e :: rest) = spliceRun (cleanup s) rest := by
  show spliceRun (spliceStep s e).1 rest = _
  rw [spliceStep_fst]

/-- Final state of a splice that saw at least one event. -/
theorem spliceRun_initial (cd sd : Bool) (e : SpliceEvent)
    (rest : List SpliceEvent) :
    spliceRun (initialSpliceState cd sd) (e :: rest) =
      { connectionClosed := true
        clientDestroyed := true
        serverDestroyed := true
        clientUnpiped := !cd
        serverUnpiped := !sd
        cleanupCount := 1 } := by
  rw [spliceRun_cons, cleanup_initial, spliceRun_closed]
  rfl

/-! ## C1 -/

/-- C1: however many error, close, end or timeout events fire on either
socket of a spliced tunnel, the cleanup body guarded by the shared
`connectionClosed` flag runs exactly once, and afterwards both sockets are
destroyed, each one unpiped unless it was already gone. -/
theorem splice_cleanup_exactly_once (cd sd : Bool) (events : List SpliceEvent)
    (hne : events ≠ []) :
    (spliceRun (initialSpliceState cd sd) events).cleanupCount = 1 ∧
    (spliceRun (initialSpliceState cd sd) events).clientDestroyed = true ∧
    (spliceRun (initialSpliceState cd sd) events).serverDestroyed = true ∧
    (cd = false → (spliceRun (initialSpliceState cd sd) events).clientUnpiped = true) ∧
    (sd = false → (spliceRun (initialSpliceState cd sd) events).serverUnpiped = true) := by
  match events with
  | [] => exact absurd rfl hne
  | e :: rest =>
    rw [spliceRun_initial]
    refine ⟨rfl, rfl, rfl, ?_, ?_⟩ <;> rintro rfl <;> rfl

/-- Witness for C1 at a concrete event sequence. -/
theorem splice_cleanup_exactly_once_witness :
    (spliceRun (initialSpliceState false false)
        [SpliceEvent.serverError "read ECONNRESET",
         SpliceEvent.serverClose true, SpliceEvent.clientEnd,
         SpliceEvent.clientClose false]).cleanupCount = 1 :=
  (splice_cleanup_exactly_once false false _ (by decide)).1

/-! ## C2 -/

/-- C2: on the direct path (six successive writes) and on the
via-upstream-proxy path (one write), the CONNECT success response is
byte-for-byte the section 4.4 header block with name `HTTPS-Proxy` and
version `1.0`. -/
theorem connect_success_response_exact :
    String.join directConnectWrites = specConnectResponse "HTTPS-Proxy" "1.0" ∧
    proxyConnectResponse = specConnectResponse "HTTPS-Proxy" "1.0" :=
  ⟨rfl, rfl⟩

/-! ## C7 (code bug) -/

/-- C7: contrary to the claim, on the direct path the `serverSocket`
error handler installed at line 486 still runs after the 200 response was
written and splicing began, and `sendConnectError` then writes an
`HTTP/1.1 502 Bad Gateway` block into the established tunnel because the
client socket is not destroyed. -/
theorem direct_tunnel_writes_502_after_200 :
    establishedDirectConn.established = true ∧
    (directConnOnServerError establishedDirectConn "read ECONNRESET").clientWrites
      = directConnectWrites ++
          [sendConnectErrorBytes "502 Bad Gateway"
            "连接目标服务器失败: read ECONNRESET"] :=
  ⟨rfl, rfl⟩

/-! ## C8 -/

/-- C8 counterexample: with the default 30000 ms configuration, a spliced
tunnel to `example.com:8080` gets a 30 s idle timeout, not the claimed
60 s, and the promoted value for port 443 is 60 s, not the claimed
120 s. -/
theorem splice_timeout_counterexample :
    spliceTimeoutMs "example.com" 8080 30000 = 30000 ∧
    spliceTimeoutMs "example.com" 443 30000 = 60000 ∧
    (30000 : Nat) ≠ 60000 ∧ (60000 : Nat) ≠ 120000 := by
  refine ⟨?_, ?_, by decide, by decide⟩ <;> decide

/-- C8 amended: the idle timeout installed on both sockets during splicing
is the configured `timeout` (default 30000 ms) and is promoted to 60 s
when the target port is 443 or the hostname contains `tradingview`; when
the timer fires on either socket the cleanup destroys both sockets. -/
theorem splice_timeout_behavior (hostname : String) (port timeout : Nat)
    (cd sd : Bool) :
    (strIncludes hostname "tradingview" = false → port ≠ 443 →
        spliceTimeoutMs hostname port timeout = timeout) ∧
    (strIncludes hostname "tradingview" = true ∨ port = 443 →
        spliceTimeoutMs hostname port timeout = 60000) ∧
    ((spliceRun (initialSpliceState cd sd) [SpliceEvent.clientTimeout]).cleanupCount = 1 ∧
     (spliceRun (initialSpliceState cd sd) [SpliceEvent.clientTimeout]).clientDestroyed = true ∧
     (spliceRun (initialSpliceState cd sd) [SpliceEvent.clientTimeout]).serverDestroyed = true) ∧
    ((spliceRun (initialSpliceState cd sd) [SpliceEvent.serverTimeout]).cleanupCount = 1 ∧
     (spliceRun (initialSpliceState cd sd) [SpliceEvent.serverTimeout]).clientDestroyed = true ∧
     (spliceRun (initialSpliceState cd sd) [SpliceEvent.serverTimeout]).serverDestroyed = true) := by
  refine ⟨?_, ?_, ?_, ?_⟩
  · intro h1 h2
    simp [spliceTimeoutMs, h1, h2]
  · intro h
    rcases h with h | h <;> simp [spliceTimeoutMs, h]
  · rw [spliceRun_initial]
    exact ⟨rfl, rfl, rfl⟩
  · rw [spliceRun_initial]
    exact ⟨rfl, rfl, rfl⟩

/-- Witness for C8's amended statement at concrete inputs. -/
theorem splice_timeout_behavior_witness :
    spliceTimeoutMs "example.com" 8080 30000 = 30000 ∧
    spliceTimeoutMs "data.tradingview.com" 8080 30000 = 60000 :=
  ⟨(splice_timeout_behavior "example.com" 8080 30000 false false).1
      (by decide) (by decide),
   (splice_timeout_behavior "data.tradingview.com" 8080 30000 false false).2.1
      (Or.inl (by decide))⟩

/-! ## C10 -/

/-- C10: every OPTIONS request on the TLS listener is answered locally
with 200 and the permissive CORS headers before any dispatching, although
OPTIONS sits in the forward-fetch method whitelist; it is never handed to
`handleHttpRequest`, so it is never forwarded. -/
theorem options_preflight_answered_locally (targetUrl : String)
    (hostHeader : Option String) (headers : List (String × String))
    (upstreamProto : Option String) :
    serverRequestHandler "OPTIONS" targetUrl hostHeader headers upstreamProto
      = ServerResponse.preflight200 corsHeaders ∧
    corsHeaders = [("Access-Control-Allow-Origin", "*"),
                   ("Access-Control-Allow-Methods", "*"),
                   ("Access-Control-Allow-Headers", "*")] ∧
    validMethods.contains "OPTIONS" = true := by
  exact ⟨rfl, rfl, by decide⟩

/-! ## C3 -/

/-- C3: on both tunnel paths, a non-empty `head` buffer (bytes the parser
read past the CONNECT request) is written to the outbound stream strictly
before splicing begins, a non-empty `proxyHead` buffer (bytes read past
the upstream's 200) is written to the client strictly before splicing
begins, and splicing — the only step that moves outbound payload to the
client — is the last action of either trace. -/
theorem head_bytes_flushed_before_splice (head proxyHead : List Nat)
    (hne : head ≠ []) :
    (∃ i j, (directConnectTrace false head).get? i
          = some (TunnelAct.writeServerBuf head) ∧
        (directConnectTrace false head).get? j = some TunnelAct.splice ∧
        i < j) ∧
    (directConnectTrace false head).getLast? = some TunnelAct.splice ∧
    (∃ i j, (proxyConnectTrace false head proxyHead).get? i
          = some (TunnelAct.writeServerBuf head) ∧
        (proxyConnectTrace false head proxyHead).get? j
          = some TunnelAct.splice ∧ i < j) ∧
    (proxyHead ≠ [] → ∃ i j,
        (proxyConnectTrace false head proxyHead).get? i
          = some (TunnelAct.writeClientBuf proxyHead) ∧
        (proxyConnectTrace false head proxyHead).get? j
          = some TunnelAct.splice ∧ i < j) ∧
    (proxyConnectTrace false head proxyHead).getLast? = some TunnelAct.splice := by
  have hl : 0 < head.length := List.length_pos.mpr hne
  have hd : directConnectTrace false head
      = directConnectWrites.map TunnelAct.writeClientStr
          ++ [TunnelAct.writeServerBuf head] ++ [TunnelAct.splice] := by
    simp [directConnectTrace, hl]
  by_cases hph : proxyHead = []
  · have hp : proxyConnectTrace false head proxyHead
        = [TunnelAct.writeClientStr proxyConnectResponse,
           TunnelAct.writeServerBuf head, TunnelAct.splice] := by
      simp [proxyConnectTrace, hl, hph]
    rw [hd, hp]
    exact ⟨⟨6, 7, rfl, rfl, by omega⟩, rfl,
           ⟨1, 2, rfl, rfl, by omega⟩,
           fun h => absurd hph h, rfl⟩
  · have hpl : 0 < proxyHead.length := List.length_pos.mpr hph
    have hp : proxyConnectTrace false head proxyHead
        = [TunnelAct.writeClientStr proxyConnectResponse,
           TunnelAct.writeServerBuf head, TunnelAct.writeClientBuf proxyHead,
           TunnelAct.splice] := by
      simp [proxyConnectTrace, hl, hpl]
    rw [hd, hp]
    exact ⟨⟨6, 7, rfl, rfl, by omega⟩, rfl,
           ⟨1, 3, rfl, rfl, by omega⟩,
           fun _ => ⟨2, 3, rfl, rfl, by omega⟩, rfl⟩

/-- Witness for C3 at concrete one-byte buffers. -/
theorem head_bytes_flushed_before_splice_witness :
    (directConnectTrace false [22]).getLast? = some TunnelAct.splice :=
  (head_bytes_flushed_before_splice [22] [22] (by decide)).2.1

/-! ## C6 -/

/-- C6 counterexample: with an upstream URL of scheme `ftp:`, a CONNECT
request is answered `502 Bad Gateway` instead of being dialed directly,
while no upstream at all dials directly. -/
theorem connect_unrecognized_upstream_502 :
    connectRoute (some "ftp:") = ConnectRoute.error502 ∧
    connectRoute none = ConnectRoute.direct ∧
    ConnectRoute.error502 ≠ ConnectRoute.direct := by
  refine ⟨?_, rfl, by decide⟩
  rfl

/-- C6 amended: an upstream URL with a scheme outside
{`http:`, `https:`, `socks4:`, `socks5:`} degrades forward-fetch requests
to a direct origin connection, but CONNECT requests do not degrade: they
are answered `502 Bad Gateway` because `createProxyAgent` yields no
agent while the upstream string stays set. -/
theorem unrecognized_upstream_scheme_behavior (proto : String)
    (isHttps : Bool)
    (h : proto ∉ ["socks5:", "socks4:", "http:", "https:"]) :
    forwardTransport (some proto) isHttps = ForwardTransport.direct ∧
    forwardTransport none isHttps = ForwardTransport.direct ∧
    connectRoute (some proto) = ConnectRoute.error502 := by
  simp only [List.mem_cons, List.not_mem_nil, or_false, not_or] at h
  obtain ⟨h5, h4, hh, hs⟩ := h
  have hagent : ∀ t c, createProxyAgent (some proto) t c = none := by
    intro t c
    simp [createProxyAgent, h5, h4, hh, hs]
  refine ⟨?_, rfl, ?_⟩
  · simp [forwardTransport, hagent]
  · simp [connectRoute, hagent]

/-- Witness for C6's amended statement at the scheme `ftp:`. -/
theorem unrecognized_upstream_scheme_behavior_witness :
    forwardTransport (some "ftp:") true = ForwardTransport.direct ∧
    forwardTransport none true = ForwardTransport.direct ∧
    connectRoute (some "ftp:") = ConnectRoute.error502 :=
  unrecognized_upstream_scheme_behavior "ftp:" true (by decide)

/-! ## Helper lemmas on the CONNECT validation gates -/

/-- The hostname regex passes exactly the non-empty strings over
`[A-Za-z0-9.-]`. -/
theorem hostMatches_iff (h : String) :
    hostMatches h = true ↔ (h ≠ "" ∧ h.toList.all hostChar = true) := by
  simp [hostMatches, String.isEmpty_iff]

/-- The gates either reject or accept the very hostname they were given. -/
theorem connectGates_shape (h : String) (tp : Option Int) :
    connectGates h tp = none ∨ ∃ p, connectGates h tp = some (h, p) := by
  unfold connectGates
  by_cases h1 : h = "" ∨ h = "null" ∨ h = "undefined"
  · exact Or.inl (if_pos h1)
  · rw [if_neg h1]
    by_cases h2 : ¬hostMatches h ∨ h.length > 253
    · exact Or.inl (if_pos h2)
    · rw [if_neg h2]
      match tp with
      | none => exact Or.inl rfl
      | some n =>
        by_cases h3 : n ≤ 0 ∨ n > 65535
        · exact Or.inl (if_pos h3)
        · exact Or.inr ⟨n, if_neg h3⟩

/-- Everything an accepted `(host, port)` pair satisfies. -/
theorem connectGates_some_facts (h0 : String) (tp : Option Int)
    (h : String) (p : Int) (heq : connectGates h0 tp = some (h, p)) :
    h = h0 ∧ h ≠ "" ∧ h.toList.all hostChar = true ∧ h.length ≤ 253 ∧
      tp = some p ∧ 0 < p ∧ p ≤ 65535 := by
  unfold connectGates at heq
  by_cases h1 : h0 = "" ∨ h0 = "null" ∨ h0 = "undefined"
  · rw [if_pos h1] at heq; exact absurd heq (by simp)
  · rw [if_neg h1] at heq
    by_cases h2 : ¬hostMatches h0 ∨ h0.length > 253
    · rw [if_pos h2] at heq; exact absurd heq (by simp)
    · rw [if_neg h2] at heq
      push_neg at h2
      obtain ⟨h2a, h2b⟩ := h2
      match tp, heq with
      | some n, heq =>
        have heq2 : (if n ≤ 0 ∨ n > 65535 then none else some (h0, n))
            = some (h, p) := heq
        by_cases h3 : n ≤ 0 ∨ n > 65535
        · rw [if_pos h3] at heq2; exact absurd heq2 (by simp)
        · rw [if_neg h3] at heq2
          push_neg at h3
          simp only [Option.some.injEq, Prod.mk.injEq] at heq2
          obtain ⟨rfl, rfl⟩ := heq2
          obtain ⟨hne, hall⟩ := (hostMatches_iff h0).mp h2a
          exact ⟨rfl, hne, hall, h2b, rfl, by omega, h3.2⟩

/-- Acceptance by the gates, characterized. -/
theorem connectGates_dial_iff (h : String) (tp : Option Int) :
    (∃ p, connectGates h tp = some (h, p)) ↔
      (h ≠ "" ∧ h ≠ "null" ∧ h ≠ "undefined" ∧
       h.toList.all hostChar = true ∧ h.length ≤ 253 ∧
       ∃ n, tp = some n ∧ 0 < n ∧ n ≤ 65535) := by
  constructor
  · rintro ⟨p, hp⟩
    obtain ⟨-, hne, hall, hlen, htp, hpos, hle⟩ :=
      connectGates_some_facts h tp h p hp
    have h1 : ¬(h = "" ∨ h = "null" ∨ h = "undefined") := by
      intro hc
      unfold connectGates at hp
      rw [if_pos hc] at hp
      exact Option.noConfusion hp
    push_neg at h1
    exact ⟨hne, h1.2.1, h1.2.2, hall, hlen, p, htp, hpos, hle⟩
  · rintro ⟨hne, hnn, hnu, hall, hlen, n, htp, hpos, hle⟩
    refine ⟨n, ?_⟩
    unfold connectGates
    rw [if_neg (by simp [hne, hnn, hnu]),
        if_neg (by simp [hlen, Nat.not_lt, (hostMatches_iff h).mpr ⟨hne, hall⟩]),
        htp]
    show (if n ≤ 0 ∨ n > 65535 then none else some (h, n)) = some (h, n)
    rw [if_neg (by omega)]

/-! ## C4 -/

/-- C4 counterexample: the bracketed IPv6 target `[::1]:443` (well-formed
bracketed address, port in range) is rejected with 400, as is
`null:443` although `null` is ASCII, 4 characters of `[A-Za-z0-9.-]`,
with port 443. -/
theorem connect_bracketed_ipv6_rejected :
    handleConnectDecision "[::1]:443" = ConnectDecision.reject400 ∧
    handleConnectDecision "null:443" = ConnectDecision.reject400 := by
  exact ⟨rfl, rfl⟩

/-- C4 amended: for a CONNECT target containing a colon, the request is
accepted iff `parts[0]` is non-empty, differs from the literals `null`
and `undefined`, has at most 253 characters all in `[A-Za-z0-9.-]`
(so a bracketed IPv6 address is rejected), and JS `parseInt` of the text
after the first colon (`443` when that text is empty) gives a port in
1..65535; a colon-free target is dialed, if at all, on port 443; and any
dialed host passed validation, so no dial happens on a 400. -/
theorem connect_target_validation (u : String) :
    (u.toList.contains ':' = true →
      ((∃ p, handleConnectDecision u = ConnectDecision.dial (connectHostOf u) p) ↔
        (connectHostOf u ≠ "" ∧ connectHostOf u ≠ "null" ∧
         connectHostOf u ≠ "undefined" ∧
         (connectHostOf u).toList.all hostChar = true ∧
         (connectHostOf u).length ≤ 253 ∧
         ∃ n, jsParseInt (connectPortStrOf u) = some n ∧ 0 < n ∧ n ≤ 65535))) ∧
    (u.toList.contains ':' = false →
      ∀ h p, handleConnectDecision u = ConnectDecision.dial h p → p = 443) ∧
    (∀ h p, handleConnectDecision u = ConnectDecision.dial h p →
      h ≠ "" ∧ h.toList.all hostChar = true ∧ h.length ≤ 253 ∧
      0 < p ∧ p ≤ 65535) := by
  refine ⟨?_, ?_, ?_⟩
  · intro hc
    have hu : u ≠ "" := by
      rintro rfl
      exact absurd hc (by decide)
    have hval : connectValidate u
        = connectGates (connectHostOf u) (jsParseInt (connectPortStrOf u)) := by
      unfold connectValidate
      rw [if_neg hu, if_pos hc]
    unfold handleConnectDecision
    rw [hval]
    rcases connectGates_shape (connectHostOf u) (jsParseInt (connectPortStrOf u))
      with hnone | ⟨p, hsome⟩
    · rw [hnone]
      constructor
      · rintro ⟨p, hp⟩
        exact ConnectDecision.noConfusion hp
      · intro hrhs
        obtain ⟨p, hp⟩ := (connectGates_dial_iff _ _).mpr hrhs
        rw [hnone] at hp
        exact Option.noConfusion hp
    · rw [hsome]
      exact ⟨fun _ => (connectGates_dial_iff _ _).mp ⟨p, hsome⟩,
             fun _ => ⟨p, rfl⟩⟩
  · intro hc h p hdial
    unfold handleConnectDecision at hdial
    by_cases hu : u = ""
    · rw [connectValidate, if_pos hu] at hdial
      exact ConnectDecision.noConfusion hdial
    · rw [connectValidate, if_neg hu, hc] at hdial
      simp only [Bool.false_eq_true, if_false] at hdial
      set h0 := if urlParseHostname u = "" then u else urlParseHostname u with hh0
      rcases hgs : connectGates h0 (jsParseInt "443") with _ | ⟨hx, px⟩
      · rw [hgs] at hdial
        exact ConnectDecision.noConfusion hdial
      · rw [hgs] at hdial
        obtain ⟨-, -, -, -, htp, -, -⟩ :=
          connectGates_some_facts h0 (jsParseInt "443") hx px hgs
        have h443 : jsParseInt "443" = some 443 := rfl
        rw [h443] at htp
        cases hdial
        cases htp
        rfl
  · intro h p hdial
    unfold handleConnectDecision at hdial
    rcases hval : connectValidate u with _ | ⟨hx, px⟩
    · rw [hval] at hdial
      exact ConnectDecision.noConfusion hdial
    · rw [hval] at hdial
      cases hdial
      unfold connectValidate at hval
      by_cases hu : u = ""
      · rw [if_pos hu] at hval
        exact Option.noConfusion hval
      · rw [if_neg hu] at hval
        by_cases hc : u.toList.contains ':' = true
        · rw [if_pos hc] at hval
          obtain ⟨-, hne, hall, hlen, -, hpos, hle⟩ :=
            connectGates_some_facts _ _ _ _ hval
          exact ⟨hne, hall, hlen, hpos, hle⟩
        · rw [if_neg hc] at hval
          obtain ⟨-, hne, hall, hlen, -, hpos, hle⟩ :=
            connectGates_some_facts _ _ _ _ hval
          exact ⟨hne, hall, hlen, hpos, hle⟩

/-- Witness for C4's amended statement: `example.com:8443` is dialed. -/
theorem connect_target_validation_witness :
    ∃ p, handleConnectDecision "example.com:8443"
        = ConnectDecision.dial (connectHostOf "example.com:8443") p :=
  ((connect_target_validation "example.com:8443").1 (by decide)).mpr
    ⟨by decide, by decide, by decide, by decide, by decide,
     8443, by decide, by decide, by decide⟩

/-! ## C5 -/

/-- C5 counterexample: the inbound `sec-websocket-extensions` header — a
member of the claim's `sec-websocket-*` family — appears verbatim in the
outbound forward-fetch request. -/
theorem forward_sec_websocket_extensions_kept :
    handleHttpRequest "GET" "http://origin.test/ws" (some "proxy")
        [("host", "proxy"), ("sec-websocket-extensions", "permessage-deflate"),
         ("connection", "Upgrade"), ("accept", "*/*")] none
      = ForwardResult.forward false
          [("sec-websocket-extensions", "permessage-deflate"),
           ("accept", "*/*"), ("host", "origin.test")]
          ForwardTransport.direct := by
  rfl

/-- C5 amended: outbound forward-fetch requests never carry an inbound
header named `host`, `proxy-connection`, `proxy-authorization`,
`connection`, `upgrade`, `sec-websocket-key`, `sec-websocket-version` or
`sec-websocket-protocol` (other `sec-websocket-*` names pass through);
the outbound `Host` is the URL hostname, with `:port` appended exactly
when the URL's normalized port is non-empty, i.e. non-default. -/
theorem forward_header_sanitization (u : ParsedUrl)
    (headers : List (String × String)) (hhost : u.hostname ≠ "") :
    (∀ name v, name ∈ strippedHeaderNames →
        (name, v) ∈ buildOutboundHeaders u headers →
        name = "host" ∧ v = outboundHostValue u) ∧
    ("host", outboundHostValue u) ∈ buildOutboundHeaders u headers ∧
    (∀ isHttps rawHost,
        outboundHostValue (mkParsedUrl isHttps rawHost
            (if isHttps then "443" else "80"))
          = (mkParsedUrl isHttps rawHost (if isHttps then "443" else "80")).hostname) ∧
    (∀ isHttps rawHost rawPort, rawPort ≠ "" →
        rawPort ≠ (if isHttps then "443" else "80") →
        outboundHostValue (mkParsedUrl isHttps rawHost rawPort)
          = (mkParsedUrl isHttps rawHost rawPort).hostname ++ ":" ++ rawPort) := by
  refine ⟨?_, ?_, ?_, ?_⟩
  · intro name v hmem hin
    unfold buildOutboundHeaders at hin
    rw [if_neg hhost] at hin
    rcases List.mem_append.mp hin with hin | hin
    · have hp := (List.mem_filter.mp hin).2
      simp only [decide_eq_true_eq] at hp
      exact absurd (List.elem_iff.mpr hmem) hp
    · rcases List.mem_singleton.mp hin with h
      exact ⟨congrArg Prod.fst h, congrArg Prod.snd h⟩
  · unfold buildOutboundHeaders
    rw [if_neg hhost]
    exact List.mem_append.mpr (Or.inr (List.mem_singleton.mpr rfl))
  · intro isHttps rawHost
    cases isHttps <;> simp [outboundHostValue, mkParsedUrl, normalizePort]
  · intro isHttps rawHost rawPort hne hnd
    have hport : (mkParsedUrl isHttps rawHost rawPort).port = rawPort := by
      simp [mkParsedUrl, normalizePort, hnd]
    simp [outboundHostValue, hport, hne]

/-- Witness for C5's amended statement at a concrete request. -/
theorem forward_header_sanitization_witness :
    ("host", outboundHostValue (mkParsedUrl false "origin.test" ""))
      ∈ buildOutboundHeaders (mkParsedUrl false "origin.test" "")
          [("host", "proxy"), ("connection", "keep-alive")] :=
  (forward_header_sanitization (mkParsedUrl false "origin.test" "")
    [("host", "proxy"), ("connection", "keep-alive")] (by decide)).2.1

/-! ## C9 -/

/-- C9 counterexample: `GET ftp://host/` with an ordinary Host header is
answered with the 200 HTML status page, not with 400 Bad Request. -/
theorem ftp_target_gets_status_page :
    handleHttpRequest "GET" "ftp://host/" (some "example.com") [] none
      = ForwardResult.statusPage200 ∧
    ForwardResult.statusPage200 ≠ ForwardResult.badProtocol400 := by
  exact ⟨rfl, by decide⟩

/-- C9 amended: a request whose target does not start with `http://` or
`https://` (for example `ftp://host/`) is never fetched on the client's
behalf, but instead of the claimed 400 it receives the 200 HTML status
page, or a 400 only when the Host header is missing, oversized or carries
control or high bytes; a 405 or the missing-URL 400 pre-empt both. -/
theorem non_http_prefix_never_fetched (method u : String)
    (hostHeader : Option String) (headers : List (String × String))
    (upstreamProto : Option String)
    (h1 : strStartsWith u "http://" = false)
    (h2 : strStartsWith u "https://" = false) :
    (∀ isHttps hs tr, handleHttpRequest method u hostHeader headers upstreamProto
        ≠ ForwardResult.forward isHttps hs tr) ∧
    (u ≠ "" → validMethods.contains method = true →
      handleHttpRequest method u hostHeader headers upstreamProto
        = (if sslSuspect hostHeader then ForwardResult.sslSuspect400
           else ForwardResult.statusPage200)) := by
  constructor
  · intro isHttps hs tr
    unfold handleHttpRequest
    by_cases hu : u = ""
    · simp [hu]
    · by_cases hm : validMethods.contains method = true
      · have hm2 : method ∈ validMethods := List.elem_iff.mp hm
        by_cases hss : sslSuspect hostHeader = true
        <;> simp [hu, hm2, h1, h2, hss]
      · have hm2 : method ∉ validMethods := fun h => hm (List.elem_iff.mpr h)
        simp [hu, hm2]
  · intro hu hm
    unfold handleHttpRequest
    have hm2 : method ∈ validMethods := List.elem_iff.mp hm
    simp [hu, hm2, h1, h2]

/-- Witness for C9's amended statement at `ftp://host/`. -/
theorem non_http_prefix_never_fetched_witness :
    handleHttpRequest "GET" "ftp://host/" (some "example.com") [] none
      = (if sslSuspect (some "example.com") then ForwardResult.sslSuspect400
         else ForwardResult.statusPage200) :=
  (non_http_prefix_never_fetched "GET" "ftp://host/" (some "example.com") [] none
    (by decide) (by decide)).2 (by decide) (by decide)

end HttpsProxy
